import Mathlib

/-!
Shallow embedding of the Intercom in-process event bus / RPC dispatcher
(`src/intercom.ts`).  Registries are modelled as functions from names to an
optional list of handler entries (a JavaScript object whose keys may be
absent), every public operation returns the mutated dispatcher state together
with an `Except`-style outcome (a thrown error or the returned value), and a
settled JavaScript promise is modelled by its eventual outcome.  The shortid
generator is modelled by a stream of candidate identifiers consumed by the
retry loop of `generateUniqueIdentifier`.
-/

namespace IntercomJs

/-- Error values carried by rejected promises and by completion callbacks
(the `Error` objects of the host language), modelled by their message. -/
abbrev JsError := String

/-- Errors raised synchronously by dispatcher operations.  `noHandler` is the
`E_NO_HANDLER` `ApplicationError`, `alreadyExists` is `E_ALREADY_EXISTS`; both
carry the offending handler name.  `typeError` models the host-language
failure of reading a property of `undefined` (an out-of-bounds array read). -/
inductive IntercomError where
  | noHandler (name : String)
  | alreadyExists (name : String)
  | typeError
deriving DecidableEq

/-- Settled outcome of a promise: fulfilled with a (possibly `undefined`,
hence optional) value, or rejected with an error. -/
abbrev PromiseOutcome (γ : Type) := Except JsError (Option γ)

/-- One registered handler entry `{ id, handler }` as stored in a registry. -/
structure HandlerEntry (η : Type) where
  id : String
  handler : η
deriving DecidableEq

/-- `HandlersRegistry`: a JavaScript object mapping handler names to arrays of
entries; a key that was never set (or was deleted) maps to `none`. -/
def HandlersRegistry (η : Type) := String → Option (List (HandlerEntry η))

/-- The empty registry (a fresh `{}` object). -/
def emptyRegistry : HandlersRegistry η := fun _ => none

/-- Assignment `registry[handlerName] = v`; `v = none` models
`delete registry[handlerName]`. -/
def setSlot (reg : HandlersRegistry η) (handlerName : String)
    (v : Option (List (HandlerEntry η))) : HandlersRegistry η :=
  fun n => if n = handlerName then v else reg n

/-- Read `registry[handlerName]` at a site that runs after
`prepareHandlersRegistry`, where the slot is an array (an absent key reads
as the empty list). -/
def lookupEntries (reg : HandlersRegistry η) (handlerName : String) :
    List (HandlerEntry η) :=
  (reg handlerName).getD []

/-- `prepareHandlersRegistry`: when `registry[handlerName]` is not an array
(the key is absent), set it to the empty array; otherwise leave the registry
untouched. -/
def prepareHandlersRegistry (reg : HandlersRegistry η) (handlerName : String) :
    HandlersRegistry η :=
  if (reg handlerName).isSome then reg else setSlot reg handlerName (some [])

/-- `ensureHandlersExists`: when the list for the name is empty and the strict
flag is set, throw the `E_NO_HANDLER` error; otherwise do nothing. -/
def ensureHandlersExists (reg : HandlersRegistry η) (handlerName : String)
    (throwErrorIfNotExists : Bool) : Except IntercomError Unit :=
  let handlerExists : Bool := decide (0 < (lookupEntries reg handlerName).length)
  if !handlerExists && throwErrorIfNotExists then
    .error (.noHandler handlerName)
  else
    .ok ()

/-- `preventRegisteringMoreThanOneHandler`: when the list for the name is
non-empty and the strict flag is set, throw the `E_ALREADY_EXISTS` error;
otherwise do nothing. -/
def preventRegisteringMoreThanOneHandler (reg : HandlersRegistry η)
    (handlerName : String) (throwErrorIfExists : Bool) : Except IntercomError Unit :=
  let handlerExists : Bool := decide (0 < (lookupEntries reg handlerName).length)
  if handlerExists && throwErrorIfExists then
    .error (.alreadyExists handlerName)
  else
    .ok ()

/-- `removeAllHandlers`: `delete registry[handlerName]` (the whole key, not
just an emptied list). -/
def removeAllHandlers (reg : HandlersRegistry η) (handlerName : String) :
    HandlersRegistry η :=
  setSlot reg handlerName none

/-- `removeHandlerById`: replace the list for the name with a filtered copy
excluding the entry whose id equals `handlerId`. -/
def removeHandlerById (reg : HandlersRegistry η) (handlerName : String)
    (handlerId : String) : HandlersRegistry η :=
  setSlot reg handlerName
    (some ((lookupEntries reg handlerName).filter (fun e => e.id != handlerId)))

/-- Uniqueness test of the generation loop:
`registry[handlerName].findIndex(e => e.id === generatedId) === -1`. -/
def idIsUnique (reg : HandlersRegistry η) (handlerName : String)
    (generatedId : String) : Bool :=
  ((lookupEntries reg handlerName).findIdx? (fun e => e.id == generatedId)).isNone

/-- `generateUniqueIdentifier`: draw candidate identifiers from the shortid
stream `generateId` until one is unique among the current entries for the
name, and return that first unique candidate.  The do-while loop terminates
exactly when some candidate is unique, which the hypothesis `hg` supplies;
the loop then stops at the first such index. -/
def generateUniqueIdentifier (reg : HandlersRegistry η) (handlerName : String)
    (generateId : Nat → String)
    (hg : ∃ n, idIsUnique reg handlerName (generateId n) = true) : String :=
  generateId (Nat.find hg)

/-- Dispatcher configuration record (`defaultIntercomConfig` shape). -/
structure IntercomConfig where
  preventDuplicatedEventListeners : Bool
  throwErrorIfNoEventHandlerFound : Bool
  throwErrorIfNoMethodHandlerFound : Bool
deriving DecidableEq

/-- The default configuration. -/
def defaultIntercomConfig : IntercomConfig :=
  { preventDuplicatedEventListeners := false
    throwErrorIfNoEventHandlerFound := false
    throwErrorIfNoMethodHandlerFound := true }

/-- An RPC handler as supplied to `onRequest`: either a promise-returning
function (declared parameter count 1) or a function taking a trailing
completion callback (declared parameter count 2).  `promiseMethod run` gives
the settled outcome of the returned promise on each payload;
`callbackMethod run` gives the `(error, result)` argument pair the handler
passes to its completion callback on each payload. -/
inductive RawMethodHandler (β γ : Type) where
  | promiseMethod (run : β → PromiseOutcome γ)
  | callbackMethod (run : β → Option JsError × Option γ)

/-- Declared parameter count of the handler (`handler.length`). -/
def RawMethodHandler.argCount : RawMethodHandler β γ → Nat
  | .promiseMethod _ => 1
  | .callbackMethod _ => 2

/-- The promise-based wrapper built by `onRequest`.  A parameter count of 1
means the handler is promise-based and is used directly; otherwise the
handler is invoked with a completion callback
`(err, result) => err ? reject(err) : resolve(err)` — note that the success
branch resolves with `err` (which is `undefined` there), exactly as the
source does. -/
def wrapMethodHandler (handler : RawMethodHandler β γ) : β → PromiseOutcome γ :=
  fun payload =>
    match handler with
    | .promiseMethod run => run payload
    | .callbackMethod run =>
      match run payload with
      | (some err, _) => .error err
      | (none, _) => .ok none

/-- Dispatcher state: the configuration and the two registries.  `ε` is the
type of event handlers, `β` and `γ` the payload and result types of the
method channel (a stored method handler is the wrapped promise-based
function). -/
structure Intercom (ε β γ : Type) where
  config : IntercomConfig
  eventHandlers : HandlersRegistry ε
  methodHandlers : HandlersRegistry (β → PromiseOutcome γ)

/-- Constructor: merge the default configuration with the user-provided one
(the spread of a full record replaces every field) and start with two empty
registries. -/
def Intercom.init (config : Option IntercomConfig) : Intercom ε β γ :=
  { config := config.getD defaultIntercomConfig
    eventHandlers := emptyRegistry
    methodHandlers := emptyRegistry }

/-- `emit`: prepare the slot, apply the existence policy — the per-call
config is consulted with a conditional (`config ? config.flag :
this.config.flag`) — then schedule every currently registered handler via
`setImmediate`, each receiving the same payload.  The returned list is the
scheduled `(handler, payload)` tasks in registration order. -/
def emit (st : Intercom ε β γ) (eventName : String) (payload : π)
    (config : Option Bool) :
    Intercom ε β γ × Except IntercomError (List (ε × π)) :=
  let ev1 := prepareHandlersRegistry st.eventHandlers eventName
  let st1 := { st with eventHandlers := ev1 }
  match ensureHandlersExists ev1 eventName
      (config.getD st.config.throwErrorIfNoEventHandlerFound) with
  | .error e => (st1, .error e)
  | .ok _ =>
    (st1, .ok ((lookupEntries ev1 eventName).map (fun h => (h.handler, payload))))

/-- `onEvent`: prepare the slot, apply the duplication policy — the per-call
flag is combined as `(config && config.flag) || this.config.flag`, so a
supplied `false` falls through to the dispatcher default — generate a unique
identifier, push the new entry, and return
`eventHandlers[eventName][insertedHandlerIndex].id` where
`insertedHandlerIndex` is the value returned by `push`, i.e. the new length
of the array; that read is out of bounds, so the property access raises a
`typeError` after the entry has been appended. -/
def onEvent (st : Intercom ε β γ) (eventName : String) (handler : ε)
    (config : Option Bool) (generateId : Nat → String)
    (hg : ∃ n, idIsUnique (prepareHandlersRegistry st.eventHandlers eventName)
      eventName (generateId n) = true) :
    Intercom ε β γ × Except IntercomError String :=
  let ev1 := prepareHandlersRegistry st.eventHandlers eventName
  match preventRegisteringMoreThanOneHandler ev1 eventName
      (config.getD false || st.config.preventDuplicatedEventListeners) with
  | .error e => ({ st with eventHandlers := ev1 }, .error e)
  | .ok _ =>
    let newEntry : HandlerEntry ε :=
      { id := generateUniqueIdentifier ev1 eventName generateId hg
        handler := handler }
    let newList := lookupEntries ev1 eventName ++ [newEntry]
    let insertedHandlerIndex := newList.length
    let ev2 := setSlot ev1 eventName (some newList)
    match newList[insertedHandlerIndex]? with
    | some e => ({ st with eventHandlers := ev2 }, .ok e.id)
    | none => ({ st with eventHandlers := ev2 }, .error .typeError)

/-- `removeAllEventHandlers`: prepare the slot, then delete the whole key. -/
def removeAllEventHandlers (st : Intercom ε β γ) (eventName : String) :
    Intercom ε β γ :=
  let ev1 := prepareHandlersRegistry st.eventHandlers eventName
  { st with eventHandlers := removeAllHandlers ev1 eventName }

/-- `removeEventHandler`: prepare the slot, then filter out the entry with
the given identifier. -/
def removeEventHandler (st : Intercom ε β γ) (eventName : String)
    (handlerId : String) : Intercom ε β γ :=
  let ev1 := prepareHandlersRegistry st.eventHandlers eventName
  { st with eventHandlers := removeHandlerById ev1 eventName handlerId }

/-- Outcome of a `request` call: a synchronously thrown error, the argument
pair the completion callback is eventually invoked with (callback mode), or
the promise handed back to the caller (deferred mode). -/
inductive RequestOutcome (γ : Type) where
  | thrown (e : IntercomError)
  | callbackInvoked (err : Option JsError) (result : Option γ)
  | promiseReturned (p : PromiseOutcome γ)

/-- `request`: prepare the slot, apply the existence policy — the per-call
flag is combined as `(config && config.flag) || this.config.flag`, so a
supplied `false` falls through to the dispatcher default — then read element
0 of the handler list and invoke its handler.  Reading element 0 of an empty
list yields `undefined`, whose `.handler` access raises a `typeError`.  In
callback mode the settled handler outcome is forwarded to the supplied
callback as `(undefined, result)` or `(err)`; in deferred mode the promise
is returned directly. -/
def request (st : Intercom ε β γ) (methodName : String) (payload : β)
    (config : Option Bool) (useCallback : Bool) :
    Intercom ε β γ × RequestOutcome γ :=
  let mh1 := prepareHandlersRegistry st.methodHandlers methodName
  let st1 := { st with methodHandlers := mh1 }
  match ensureHandlersExists mh1 methodName
      (config.getD false || st.config.throwErrorIfNoMethodHandlerFound) with
  | .error e => (st1, .thrown e)
  | .ok _ =>
    match (lookupEntries mh1 methodName)[0]? with
    | none => (st1, .thrown .typeError)
    | some entry =>
      if useCallback then
        match entry.handler payload with
        | .ok result => (st1, .callbackInvoked none result)
        | .error err => (st1, .callbackInvoked (some err) none)
      else
        (st1, .promiseReturned (entry.handler payload))

/-- `onRequest`: prepare the slot, apply the duplication check with the
strict flag hard-coded to `true`, generate a unique identifier, store the
single-element list holding the wrapped handler, and return the
identifier. -/
def onRequest (st : Intercom ε β γ) (methodName : String)
    (handler : RawMethodHandler β γ) (generateId : Nat → String)
    (hg : ∃ n, idIsUnique (prepareHandlersRegistry st.methodHandlers methodName)
      methodName (generateId n) = true) :
    Intercom ε β γ × Except IntercomError String :=
  let mh1 := prepareHandlersRegistry st.methodHandlers methodName
  match preventRegisteringMoreThanOneHandler mh1 methodName true with
  | .error e => ({ st with methodHandlers := mh1 }, .error e)
  | .ok _ =>
    let handlerIdentifier := generateUniqueIdentifier mh1 methodName generateId hg
    let mh2 := setSlot mh1 methodName
      (some [{ id := handlerIdentifier, handler := wrapMethodHandler handler }])
    ({ st with methodHandlers := mh2 }, .ok handlerIdentifier)

/-- `removeMethodHandler`: delete the whole key from the method registry
(no slot preparation happens here). -/
def removeMethodHandler (st : Intercom ε β γ) (methodName : String) :
    Intercom ε β γ :=
  { st with methodHandlers := removeAllHandlers st.methodHandlers methodName }

/-- Dispatcher states reachable from a freshly constructed instance through
the public interface. -/
inductive Reachable : Intercom ε β γ → Prop where
  | stepInit (config : Option IntercomConfig) :
      Reachable (Intercom.init config)
  | stepEmit {st : Intercom ε β γ} (h : Reachable st) {π : Type}
      (eventName : String) (payload : π) (config : Option Bool) :
      Reachable (emit st eventName payload config).1
  | stepOnEvent {st : Intercom ε β γ} (h : Reachable st) (eventName : String)
      (handler : ε) (config : Option Bool) (generateId : Nat → String) (hg) :
      Reachable (onEvent st eventName handler config generateId hg).1
  | stepRemoveAllEventHandlers {st : Intercom ε β γ} (h : Reachable st)
      (eventName : String) :
      Reachable (removeAllEventHandlers st eventName)
  | stepRemoveEventHandler {st : Intercom ε β γ} (h : Reachable st)
      (eventName handlerId : String) :
      Reachable (removeEventHandler st eventName handlerId)
  | stepRequest {st : Intercom ε β γ} (h : Reachable st) (methodName : String)
      (payload : β) (config : Option Bool) (useCallback : Bool) :
      Reachable (request st methodName payload config useCallback).1
  | stepOnRequest {st : Intercom ε β γ} (h : Reachable st) (methodName : String)
      (handler : RawMethodHandler β γ) (generateId : Nat → String) (hg) :
      Reachable (onRequest st methodName handler generateId hg).1
  | stepRemoveMethodHandler {st : Intercom ε β γ} (h : Reachable st)
      (methodName : String) :
      Reachable (removeMethodHandler st methodName)

/-! Concrete fixtures used by witnesses and counterexamples. -/

/-- Constant candidate stream: the shortid generator keeps producing the
fresh identifier `z0`. -/
def gen0 : Nat → String := fun _ => "z0"

/-- Candidate stream whose first candidate is `a0` (a collision below) and
whose later candidates are `b0`. -/
def genAB : Nat → String := fun n => if n = 0 then "a0" else "b0"

/-- Event registry holding a single entry with id `a0` under name `a`. -/
def evRegOne : HandlersRegistry Nat :=
  setSlot emptyRegistry "a" (some [{ id := "a0", handler := 7 }])

/-- Dispatcher with the default configuration and one event handler under
name `a`. -/
def stEventOne : Intercom Nat Nat Nat :=
  { config := defaultIntercomConfig
    eventHandlers := evRegOne
    methodHandlers := emptyRegistry }

/-- Dispatcher with the default configuration whose sole method handler
under name `m` is the wrap of a callback-style handler completing
successfully with result 42. -/
def stMethodOne : Intercom Nat Nat Nat :=
  { config := defaultIntercomConfig
    eventHandlers := emptyRegistry
    methodHandlers := setSlot emptyRegistry "m"
      (some [{ id := "h1"
               handler := wrapMethodHandler (.callbackMethod (fun _ => (none, some 42))) }]) }

/-- Dispatcher constructed with every strictness flag switched off. -/
def intercomLax : Intercom Nat Nat Nat :=
  Intercom.init (some
    { preventDuplicatedEventListeners := false
      throwErrorIfNoEventHandlerFound := false
      throwErrorIfNoMethodHandlerFound := false })

/-! Basic registry lemmas. -/

theorem setSlot_self (reg : HandlersRegistry η) (handlerName : String)
    (v : Option (List (HandlerEntry η))) : setSlot reg handlerName v handlerName = v := by
  simp [setSlot]

theorem setSlot_ne (reg : HandlersRegistry η) (handlerName n : String)
    (v : Option (List (HandlerEntry η))) (h : n ≠ handlerName) :
    setSlot reg handlerName v n = reg n := by
  simp [setSlot, h]

theorem lookupEntries_setSlot_self (reg : HandlersRegistry η) (handlerName : String)
    (v : Option (List (HandlerEntry η))) :
    lookupEntries (setSlot reg handlerName v) handlerName = v.getD [] := by
  simp [lookupEntries, setSlot]

theorem lookupEntries_setSlot_ne (reg : HandlersRegistry η) (handlerName n : String)
    (v : Option (List (HandlerEntry η))) (h : n ≠ handlerName) :
    lookupEntries (setSlot reg handlerName v) n = lookupEntries reg n := by
  simp [lookupEntries, setSlot, h]

theorem prepareHandlersRegistry_of_isSome (reg : HandlersRegistry η)
    (handlerName : String) (h : (reg handlerName).isSome) :
    prepareHandlersRegistry reg handlerName = reg := by
  simp [prepareHandlersRegistry, h]

theorem isSome_of_lookupEntries_ne_nil (reg : HandlersRegistry η)
    (handlerName : String) (h : lookupEntries reg handlerName ≠ []) :
    (reg handlerName).isSome := by
  cases hv : reg handlerName with
  | none => exact absurd (by simp [lookupEntries, hv]) h
  | some l => simp

theorem lookupEntries_prepare (reg : HandlersRegistry η) (handlerName n : String) :
    lookupEntries (prepareHandlersRegistry reg handlerName) n = lookupEntries reg n := by
  by_cases hs : (reg handlerName).isSome
  · rw [prepareHandlersRegistry_of_isSome reg handlerName hs]
  · unfold prepareHandlersRegistry
    rw [if_neg hs]
    by_cases he : n = handlerName
    · subst he
      rw [lookupEntries_setSlot_self]
      cases hv : reg n with
      | none => simp [lookupEntries, hv]
      | some l => exact absurd (by simp [hv]) hs
    · exact lookupEntries_setSlot_ne reg handlerName n _ he

/-- Identifiers accepted by the uniqueness test really are fresh among the
current entries for the name. -/
theorem idIsUnique_fresh (reg : HandlersRegistry η) (handlerName generatedId : String)
    (h : idIsUnique reg handlerName generatedId = true) :
    ∀ e ∈ lookupEntries reg handlerName, e.id ≠ generatedId := by
  intro e he
  unfold idIsUnique at h
  rw [Option.isNone_iff_eq_none, List.findIdx?_eq_none_iff] at h
  have := h e he
  simpa using this

/-- Evaluation lemma: when already the first candidate of the stream is
fresh, the retry loop returns it. -/
theorem generateUniqueIdentifier_eq_head (reg : HandlersRegistry η)
    (handlerName : String) (generateId : Nat → String)
    (hg : ∃ n, idIsUnique reg handlerName (generateId n) = true)
    (h0 : idIsUnique reg handlerName (generateId 0) = true) :
    generateUniqueIdentifier reg handlerName generateId hg = generateId 0 := by
  unfold generateUniqueIdentifier
  congr 1
  exact (Nat.find_eq_zero hg).mpr h0

theorem prepareHandlersRegistry_ne (reg : HandlersRegistry η) (handlerName n : String)
    (h : n ≠ handlerName) : prepareHandlersRegistry reg handlerName n = reg n := by
  unfold prepareHandlersRegistry
  split
  · rfl
  · exact setSlot_ne reg handlerName n _ h

theorem ensureHandlersExists_nil_ok (reg : HandlersRegistry η) (handlerName : String)
    (h : lookupEntries reg handlerName = []) :
    ensureHandlersExists reg handlerName false = .ok () := by
  simp [ensureHandlersExists, h]

theorem ensureHandlersExists_nil_error (reg : HandlersRegistry η) (handlerName : String)
    (h : lookupEntries reg handlerName = []) :
    ensureHandlersExists reg handlerName true = .error (.noHandler handlerName) := by
  simp [ensureHandlersExists, h]

theorem ensureHandlersExists_pos (reg : HandlersRegistry η) (handlerName : String)
    (b : Bool) (h : lookupEntries reg handlerName ≠ []) :
    ensureHandlersExists reg handlerName b = .ok () := by
  have hp : 0 < (lookupEntries reg handlerName).length := List.length_pos.mpr h
  simp [ensureHandlersExists, hp]

theorem preventRegisteringMoreThanOneHandler_ne_nil (reg : HandlersRegistry η)
    (handlerName : String) (h : lookupEntries reg handlerName ≠ []) :
    preventRegisteringMoreThanOneHandler reg handlerName true =
      .error (.alreadyExists handlerName) := by
  have hp : 0 < (lookupEntries reg handlerName).length := List.length_pos.mpr h
  simp [preventRegisteringMoreThanOneHandler, hp]

/-- A rejection by the duplication check always carries the requested name
and can only happen on a non-empty entry list. -/
theorem preventRegisteringMoreThanOneHandler_error (reg : HandlersRegistry η)
    (handlerName : String) (b : Bool) (e : IntercomError)
    (h : preventRegisteringMoreThanOneHandler reg handlerName b = .error e) :
    e = .alreadyExists handlerName ∧ lookupEntries reg handlerName ≠ [] := by
  unfold preventRegisteringMoreThanOneHandler at h
  by_cases hx : (decide (0 < (lookupEntries reg handlerName).length) && b) = true
  · rw [if_pos hx] at h
    refine ⟨(Except.error.injEq _ _).mp h |>.symm, ?_⟩
    have h1 : decide (0 < (lookupEntries reg handlerName).length) = true :=
      (Bool.and_eq_true _ _).mp hx |>.1
    exact List.ne_nil_of_length_pos (of_decide_eq_true h1)
  · rw [if_neg hx] at h
    exact absurd h (by simp)

/-! Field-effect lemmas for the public operations. -/

theorem emit_fst (st : Intercom ε β γ) (eventName : String) (payload : π)
    (config : Option Bool) :
    (emit st eventName payload config).1 =
      { st with eventHandlers := prepareHandlersRegistry st.eventHandlers eventName } := by
  unfold emit
  dsimp only
  split <;> rfl

theorem request_fst (st : Intercom ε β γ) (methodName : String) (payload : β)
    (config : Option Bool) (useCallback : Bool) :
    (request st methodName payload config useCallback).1 =
      { st with methodHandlers := prepareHandlersRegistry st.methodHandlers methodName } := by
  unfold request
  dsimp only
  split
  · rfl
  · split
    · rfl
    · split
      · split <;> rfl
      · rfl

theorem onEvent_fst_methodHandlers (st : Intercom ε β γ) (eventName : String)
    (handler : ε) (config : Option Bool) (generateId : Nat → String) (hg) :
    (onEvent st eventName handler config generateId hg).1.methodHandlers =
      st.methodHandlers := by
  unfold onEvent
  dsimp only
  split
  · rfl
  · split <;> rfl

theorem onRequest_fst_eventHandlers (st : Intercom ε β γ) (methodName : String)
    (handler : RawMethodHandler β γ) (generateId : Nat → String) (hg) :
    (onRequest st methodName handler generateId hg).1.eventHandlers =
      st.eventHandlers := by
  unfold onRequest
  dsimp only
  split <;> rfl

/-- The method registry after `onRequest` is either the prepared input
registry (registration was rejected) or the prepared registry with the name
bound to a single-element list. -/
theorem onRequest_fst_methodHandlers_cases (st : Intercom ε β γ) (methodName : String)
    (handler : RawMethodHandler β γ) (generateId : Nat → String) (hg) :
    (onRequest st methodName handler generateId hg).1.methodHandlers =
      prepareHandlersRegistry st.methodHandlers methodName ∨
    ∃ e, (onRequest st methodName handler generateId hg).1.methodHandlers =
      setSlot (prepareHandlersRegistry st.methodHandlers methodName) methodName
        (some [e]) := by
  unfold onRequest
  dsimp only
  split
  · exact Or.inl rfl
  · exact Or.inr ⟨_, rfl⟩

/-! Freshness of the fixture candidate streams. -/

theorem hgInit : ∃ n, idIsUnique (prepareHandlersRegistry
    (Intercom.init none : Intercom Nat Nat Nat).eventHandlers "e") "e" (gen0 n) = true :=
  ⟨0, by decide⟩

theorem hgInitM : ∃ n, idIsUnique (prepareHandlersRegistry
    (Intercom.init none : Intercom Nat Nat Nat).methodHandlers "m") "m" (gen0 n) = true :=
  ⟨0, by decide⟩

theorem hgM : ∃ n, idIsUnique (prepareHandlersRegistry stMethodOne.methodHandlers "m")
    "m" (gen0 n) = true :=
  ⟨0, by decide⟩

theorem hgE : ∃ n, idIsUnique (prepareHandlersRegistry stEventOne.eventHandlers "a")
    "a" (gen0 n) = true :=
  ⟨0, by decide⟩

theorem hgAB : ∃ n, idIsUnique evRegOne "a" (genAB n) = true :=
  ⟨1, by decide⟩

/-! Claim theorems. -/

/-- Claim C5: for a name with zero registered event handlers, emit under the
default dispatcher configuration completes without failure and schedules
nothing, and emit with the per-call flag set to true fails with the
no-handler error carrying the name. -/
theorem emit_zero_handlers (st : Intercom ε β γ) (eventName : String) (payload : π)
    (h0 : lookupEntries st.eventHandlers eventName = [])
    (hc : st.config = defaultIntercomConfig) :
    (emit st eventName payload none).2 = .ok [] ∧
    (emit st eventName payload (some true)).2 = .error (.noHandler eventName) := by
  have hl : lookupEntries (prepareHandlersRegistry st.eventHandlers eventName) eventName = [] := by
    rw [lookupEntries_prepare]
    exact h0
  constructor
  · unfold emit
    dsimp only
    rw [show (none : Option Bool).getD st.config.throwErrorIfNoEventHandlerFound = false by
      rw [hc]; rfl]
    rw [ensureHandlersExists_nil_ok _ _ hl]
    dsimp only
    rw [hl]
    rfl
  · unfold emit
    dsimp only
    rw [show (some true : Option Bool).getD st.config.throwErrorIfNoEventHandlerFound = true
      from rfl]
    rw [ensureHandlersExists_nil_error _ _ hl]

/-- Witness for claim C5 at a freshly constructed dispatcher. -/
theorem emit_zero_handlers_witness :
    (lookupEntries (Intercom.init none : Intercom Nat Nat Nat).eventHandlers "a" = []) ∧
    ((Intercom.init none : Intercom Nat Nat Nat).config = defaultIntercomConfig) ∧
    (emit (Intercom.init none : Intercom Nat Nat Nat) "a" (0 : Nat) none).2 = .ok [] ∧
    (emit (Intercom.init none : Intercom Nat Nat Nat) "a" (0 : Nat) (some true)).2 =
      .error (.noHandler "a") :=
  ⟨rfl, rfl, (emit_zero_handlers (Intercom.init none) "a" 0 rfl rfl).1,
    (emit_zero_handlers (Intercom.init none) "a" 0 rfl rfl).2⟩

/-- Claim C9: removeEventHandler replaces the named list by a copy filtered
on the identifier: an entry survives exactly when it was present before and
its id differs from the given one; when no entry matches, the entry list is
unchanged; slots of every other name, and the whole method registry, are
untouched. -/
theorem removeEventHandler_spec (st : Intercom ε β γ) (eventName handlerId : String) :
    (lookupEntries (removeEventHandler st eventName handlerId).eventHandlers eventName =
      (lookupEntries st.eventHandlers eventName).filter (fun e => e.id != handlerId)) ∧
    (∀ e : HandlerEntry ε,
      e ∈ lookupEntries (removeEventHandler st eventName handlerId).eventHandlers eventName ↔
      e ∈ lookupEntries st.eventHandlers eventName ∧ e.id ≠ handlerId) ∧
    (∀ n, n ≠ eventName →
      (removeEventHandler st eventName handlerId).eventHandlers n = st.eventHandlers n) ∧
    ((∀ e ∈ lookupEntries st.eventHandlers eventName, e.id ≠ handlerId) →
      lookupEntries (removeEventHandler st eventName handlerId).eventHandlers eventName =
        lookupEntries st.eventHandlers eventName) ∧
    (removeEventHandler st eventName handlerId).methodHandlers = st.methodHandlers := by
  have hmain : lookupEntries (removeEventHandler st eventName handlerId).eventHandlers eventName =
      (lookupEntries st.eventHandlers eventName).filter (fun e => e.id != handlerId) := by
    unfold removeEventHandler removeHandlerById
    dsimp only
    rw [lookupEntries_setSlot_self]
    rw [lookupEntries_prepare]
    rfl
  refine ⟨hmain, ?_, ?_, ?_, rfl⟩
  · intro e
    rw [hmain, List.mem_filter]
    simp [bne_iff_ne]
  · intro n hn
    unfold removeEventHandler removeHandlerById
    dsimp only
    rw [setSlot_ne _ _ _ _ hn, prepareHandlersRegistry_ne _ _ _ hn]
  · intro hno
    rw [hmain]
    apply List.filter_eq_self.mpr
    intro e he
    exact bne_iff_ne.mpr (hno e he)

/-- Witness for claim C9: removing an id that matches nothing leaves the
entry list for the name as it was. -/
theorem removeEventHandler_spec_witness :
    lookupEntries (removeEventHandler stEventOne "a" "zz").eventHandlers "a" =
      lookupEntries stEventOne.eventHandlers "a" :=
  (removeEventHandler_spec stEventOne "a" "zz").2.2.2.1 (by decide)

/-- Claim C6: the identifier returned by generateUniqueIdentifier differs
from the id of every entry currently registered under the name, and the
loop retries on collision rather than failing: the result is the first
candidate of the stream that is unique, every earlier candidate failing the
uniqueness test. -/
theorem generateUniqueIdentifier_no_collision (reg : HandlersRegistry η)
    (handlerName : String) (generateId : Nat → String)
    (hg : ∃ n, idIsUnique reg handlerName (generateId n) = true) :
    (∀ e ∈ lookupEntries reg handlerName,
      e.id ≠ generateUniqueIdentifier reg handlerName generateId hg) ∧
    (∃ k, generateUniqueIdentifier reg handlerName generateId hg = generateId k ∧
      idIsUnique reg handlerName (generateId k) = true ∧
      ∀ m, m < k → idIsUnique reg handlerName (generateId m) = false) := by
  constructor
  · intro e he
    exact idIsUnique_fresh reg handlerName _ (Nat.find_spec hg) e he
  · refine ⟨Nat.find hg, rfl, Nat.find_spec hg, ?_⟩
    intro m hm
    have := Nat.find_min hg hm
    simpa using this

/-- Witness for claim C6: with one entry of id a0 registered and a stream
whose first candidate collides with it, the generated identifier avoids
a0. -/
theorem generateUniqueIdentifier_no_collision_witness :
    (∃ n, idIsUnique evRegOne "a" (genAB n) = true) ∧
    "a0" ≠ generateUniqueIdentifier evRegOne "a" genAB hgAB :=
  ⟨hgAB, (generateUniqueIdentifier_no_collision evRegOne "a" genAB hgAB).1
    { id := "a0", handler := 7 } (by decide)⟩

/-- Claim C4 counterexample: on a dispatcher with the default configuration
and no handler registered, request with the explicit per-call value false
for the strictness flag still fails with the no-handler error. -/
theorem request_explicit_false_cex :
    (request (Intercom.init none : Intercom Nat Nat Nat) "m" 0 (some false) false).2 =
      .thrown (.noHandler "m") := rfl

/-- Claim C4 (amended): request combines the per-call flag with the
dispatcher default by disjunction, reading an absent per-call value as
false, so whenever the dispatcher default is true and no handler is
registered the call throws the no-handler error under every per-call
configuration, an explicit false included. -/
theorem request_or_combines_config (st : Intercom ε β γ) (methodName : String)
    (payload : β) (config : Option Bool) (useCallback : Bool)
    (h0 : lookupEntries st.methodHandlers methodName = [])
    (hd : st.config.throwErrorIfNoMethodHandlerFound = true) :
    (request st methodName payload config useCallback).2 = .thrown (.noHandler methodName) := by
  have hl : lookupEntries (prepareHandlersRegistry st.methodHandlers methodName) methodName = [] := by
    rw [lookupEntries_prepare]
    exact h0
  unfold request
  dsimp only
  rw [hd, Bool.or_true]
  rw [ensureHandlersExists_nil_error _ _ hl]

/-- Witness for claim C4 at a freshly constructed dispatcher and an explicit
per-call false. -/
theorem request_or_combines_config_witness :
    (lookupEntries (Intercom.init none : Intercom Nat Nat Nat).methodHandlers "k" = []) ∧
    ((Intercom.init none : Intercom Nat Nat Nat).config.throwErrorIfNoMethodHandlerFound = true) ∧
    (request (Intercom.init none : Intercom Nat Nat Nat) "k" 5 (some false) true).2 =
      .thrown (.noHandler "k") :=
  ⟨rfl, rfl, request_or_combines_config (Intercom.init none) "k" 5 (some false) true rfl rfl⟩

/-- Claim C1 counterexample: with a handler already registered under m, a
second onRequest call for m raises the already-exists error instead of
succeeding. -/
theorem onRequest_second_call_cex :
    (onRequest stMethodOne "m" (.promiseMethod (fun x => .ok (some x))) gen0 hgM).2 =
      .error (.alreadyExists "m") := rfl

/-- Claim C1 (amended): when the method name already holds a registered
handler, onRequest rejects the second registration with the already-exists
error and leaves the dispatcher state exactly unchanged, so subsequent
request calls still reach only the originally registered handler. -/
theorem onRequest_existing_rejected (st : Intercom ε β γ) (methodName : String)
    (handler : RawMethodHandler β γ) (generateId : Nat → String) (hg)
    (hex : lookupEntries st.methodHandlers methodName ≠ []) :
    (onRequest st methodName handler generateId hg).2 = .error (.alreadyExists methodName) ∧
    (onRequest st methodName handler generateId hg).1 = st := by
  have hs : (st.methodHandlers methodName).isSome :=
    isSome_of_lookupEntries_ne_nil _ _ hex
  have hp : prepareHandlersRegistry st.methodHandlers methodName = st.methodHandlers :=
    prepareHandlersRegistry_of_isSome _ _ hs
  have hprev : preventRegisteringMoreThanOneHandler
      (prepareHandlersRegistry st.methodHandlers methodName) methodName true =
      .error (.alreadyExists methodName) :=
    preventRegisteringMoreThanOneHandler_ne_nil _ _ (by rw [lookupEntries_prepare]; exact hex)
  unfold onRequest
  dsimp only
  rw [hprev]
  dsimp only
  exact ⟨rfl, by rw [hp]⟩

/-- Witness for claim C1 at a dispatcher already holding a method handler. -/
theorem onRequest_existing_rejected_witness :
    (lookupEntries stMethodOne.methodHandlers "m" ≠ []) ∧
    (onRequest stMethodOne "m" (.callbackMethod (fun _ => (none, some 1))) gen0 hgM).2 =
      .error (.alreadyExists "m") :=
  ⟨List.cons_ne_nil _ _,
    (onRequest_existing_rejected stMethodOne "m" (.callbackMethod (fun _ => (none, some 1)))
      gen0 hgM (List.cons_ne_nil _ _)).1⟩

/-- Claim C3 (code evaluation at the failing input): the sole handler for m
is callback-style and completes successfully with 42, yet deferred-mode
request returns a promise fulfilled with the undefined error argument rather
than 42, and callback-mode request invokes the callback with (undefined,
undefined) rather than (undefined, 42): the wrapper resolves the deferred
value with the error argument of the completion callback. -/
theorem request_callback_success_resolves_err :
    (request stMethodOne "m" 0 none false).2 = .promiseReturned (.ok none) ∧
    (request stMethodOne "m" 0 none true).2 = .callbackInvoked none none ∧
    wrapMethodHandler (.callbackMethod (fun _ => ((none : Option JsError), some 42))) 0 =
      .ok none :=
  ⟨rfl, rfl, rfl⟩

/-- Claim C2 (code evaluation): an onEvent registration that passes the
duplication check appends the entry carrying the freshly generated
identifier, but the return statement reads the entry list at the index
returned by push — the new length — which is out of bounds, so onEvent ends
in a type error instead of returning the generated id. -/
theorem onEvent_appends_then_type_error (st : Intercom ε β γ) (eventName : String)
    (handler : ε) (config : Option Bool) (generateId : Nat → String) (hg)
    (hpass : preventRegisteringMoreThanOneHandler
      (prepareHandlersRegistry st.eventHandlers eventName) eventName
      (config.getD false || st.config.preventDuplicatedEventListeners) = .ok ()) :
    (onEvent st eventName handler config generateId hg).2 = .error .typeError ∧
    lookupEntries (onEvent st eventName handler config generateId hg).1.eventHandlers eventName =
      lookupEntries st.eventHandlers eventName ++
        [{ id := generateUniqueIdentifier
              (prepareHandlersRegistry st.eventHandlers eventName) eventName generateId hg
           handler := handler }] := by
  unfold onEvent
  dsimp only
  rw [hpass]
  dsimp only
  rw [List.getElem?_eq_none (le_refl _)]
  refine ⟨rfl, ?_⟩
  dsimp only
  rw [lookupEntries_setSlot_self]
  rw [lookupEntries_prepare]
  rfl

/-- Witness for claim C2 at a freshly constructed dispatcher. -/
theorem onEvent_appends_then_type_error_witness :
    (preventRegisteringMoreThanOneHandler
      (prepareHandlersRegistry (Intercom.init none : Intercom Nat Nat Nat).eventHandlers "e") "e"
      ((none : Option Bool).getD false ||
        (Intercom.init none : Intercom Nat Nat Nat).config.preventDuplicatedEventListeners) =
      .ok ()) ∧
    (onEvent (Intercom.init none : Intercom Nat Nat Nat) "e" 5 none gen0 hgInit).2 =
      .error .typeError :=
  ⟨rfl, (onEvent_appends_then_type_error (Intercom.init none) "e" 5 none gen0 hgInit rfl).1⟩

/-- Claim C8 counterexample: emit on a never-seen name with the strict
per-call flag fails with the no-handler error yet mutates the event
registry: the slot for the name changes from absent to an empty list, so the
registries are not left unchanged. -/
theorem failing_emit_mutates_registry_cex :
    (emit (Intercom.init none : Intercom Nat Nat Nat) "a" (0 : Nat) (some true)).2 =
      .error (.noHandler "a") ∧
    (emit (Intercom.init none : Intercom Nat Nat Nat) "a" (0 : Nat) (some true)).1.eventHandlers "a" =
      some [] ∧
    (Intercom.init none : Intercom Nat Nat Nat).eventHandlers "a" = none ∧
    (emit (Intercom.init none : Intercom Nat Nat Nat) "a" (0 : Nat) (some true)).1.eventHandlers ≠
      (Intercom.init none : Intercom Nat Nat Nat).eventHandlers := by
  refine ⟨rfl, rfl, rfl, fun h => ?_⟩
  have h2 := congrFun h "a"
  exact Option.noConfusion
    (show some ([] : List (HandlerEntry Nat)) = none from h2)

/-- Claim C8 (amended): an operation that throws the no-handler or
already-exists error never adds or removes a handler: a failing emit or
request leaves the entry list of every name in both registries unchanged
(its only state effect is materializing an empty slot for the prepared
name), and an onEvent or onRequest rejected by the duplication check leaves
the dispatcher state literally unchanged, the previously registered handlers
staying in place. -/
theorem failing_ops_preserve_entries {ε β γ : Type} :
    (∀ (st : Intercom ε β γ) (eventName : String) {π : Type} (payload : π)
        (config : Option Bool) (e : IntercomError),
      (emit st eventName payload config).2 = .error e →
      (∀ n, lookupEntries (emit st eventName payload config).1.eventHandlers n =
        lookupEntries st.eventHandlers n) ∧
      (emit st eventName payload config).1.methodHandlers = st.methodHandlers) ∧
    (∀ (st : Intercom ε β γ) (methodName : String) (payload : β)
        (config : Option Bool) (useCallback : Bool) (e : IntercomError),
      (request st methodName payload config useCallback).2 = .thrown e →
      (∀ n, lookupEntries (request st methodName payload config useCallback).1.methodHandlers n =
        lookupEntries st.methodHandlers n) ∧
      (request st methodName payload config useCallback).1.eventHandlers = st.eventHandlers) ∧
    (∀ (st : Intercom ε β γ) (eventName : String) (handler : ε) (config : Option Bool)
        (generateId : Nat → String) hg (name : String),
      (onEvent st eventName handler config generateId hg).2 = .error (.alreadyExists name) →
      (onEvent st eventName handler config generateId hg).1 = st) ∧
    (∀ (st : Intercom ε β γ) (methodName : String) (handler : RawMethodHandler β γ)
        (generateId : Nat → String) hg (name : String),
      (onRequest st methodName handler generateId hg).2 = .error (.alreadyExists name) →
      (onRequest st methodName handler generateId hg).1 = st) := by
  refine ⟨?_, ?_, ?_, ?_⟩
  · intro st eventName π payload config e _
    rw [emit_fst]
    exact ⟨fun n => lookupEntries_prepare _ _ _, rfl⟩
  · intro st methodName payload config useCallback e _
    rw [request_fst]
    exact ⟨fun n => lookupEntries_prepare _ _ _, rfl⟩
  · intro st eventName handler config generateId hg name
    unfold onEvent
    dsimp only
    cases hprev : preventRegisteringMoreThanOneHandler
        (prepareHandlersRegistry st.eventHandlers eventName) eventName
        (config.getD false || st.config.preventDuplicatedEventListeners) with
    | error e0 =>
      intro _
      dsimp only
      have hne := (preventRegisteringMoreThanOneHandler_error _ _ _ _ hprev).2
      rw [lookupEntries_prepare] at hne
      have hs := isSome_of_lookupEntries_ne_nil _ _ hne
      rw [prepareHandlersRegistry_of_isSome _ _ hs]
    | ok u =>
      dsimp only
      rw [List.getElem?_eq_none (le_refl _)]
      dsimp only
      intro h
      exact absurd ((Except.error.injEq _ _).mp h) (by simp)
  · intro st methodName handler generateId hg name
    unfold onRequest
    dsimp only
    cases hprev : preventRegisteringMoreThanOneHandler
        (prepareHandlersRegistry st.methodHandlers methodName) methodName true with
    | error e0 =>
      intro _
      dsimp only
      have hne := (preventRegisteringMoreThanOneHandler_error _ _ _ _ hprev).2
      rw [lookupEntries_prepare] at hne
      have hs := isSome_of_lookupEntries_ne_nil _ _ hne
      rw [prepareHandlersRegistry_of_isSome _ _ hs]
    | ok u =>
      dsimp only
      intro h
      exact absurd h (by simp)

/-- Witness for claim C8: an onEvent rejected by the strict duplication
check leaves the dispatcher, and thus the first registered handler, exactly
as they were. -/
theorem failing_ops_preserve_entries_witness :
    ((onEvent stEventOne "a" 9 (some true) gen0 hgE).2 = .error (.alreadyExists "a")) ∧
    (onEvent stEventOne "a" 9 (some true) gen0 hgE).1 = stEventOne :=
  ⟨rfl, failing_ops_preserve_entries.2.2.1 stEventOne "a" 9 (some true) gen0 hgE "a" rfl⟩

/-- Claim C10: the element-0 read in request is guarded only by the
strictness check: with zero handlers and a lax effective flag the code
reaches the out-of-bounds read of the empty list, a type error; with zero
handlers and a strict flag the no-handler guard fires first; with at least
one handler registered the read is safe and request throws nothing. -/
theorem request_element_zero_guard (st : Intercom ε β γ) (methodName : String)
    (payload : β) (config : Option Bool) (useCallback : Bool) :
    (lookupEntries st.methodHandlers methodName = [] →
      (config.getD false || st.config.throwErrorIfNoMethodHandlerFound) = false →
      (request st methodName payload config useCallback).2 = .thrown .typeError) ∧
    (lookupEntries st.methodHandlers methodName = [] →
      (config.getD false || st.config.throwErrorIfNoMethodHandlerFound) = true →
      (request st methodName payload config useCallback).2 = .thrown (.noHandler methodName)) ∧
    (lookupEntries st.methodHandlers methodName ≠ [] →
      ∀ e : IntercomError,
        (request st methodName payload config useCallback).2 ≠ .thrown e) := by
  refine ⟨?_, ?_, ?_⟩
  · intro h0 hflag
    have hl : lookupEntries (prepareHandlersRegistry st.methodHandlers methodName) methodName
        = [] := by
      rw [lookupEntries_prepare]
      exact h0
    unfold request
    dsimp only
    rw [hflag]
    rw [ensureHandlersExists_nil_ok _ _ hl]
    dsimp only
    rw [hl]
    rfl
  · intro h0 hflag
    have hl : lookupEntries (prepareHandlersRegistry st.methodHandlers methodName) methodName
        = [] := by
      rw [lookupEntries_prepare]
      exact h0
    unfold request
    dsimp only
    rw [hflag]
    rw [ensureHandlersExists_nil_error _ _ hl]
  · intro hne e
    have hl : lookupEntries (prepareHandlersRegistry st.methodHandlers methodName) methodName
        ≠ [] := by
      rw [lookupEntries_prepare]
      exact hne
    unfold request
    dsimp only
    rw [ensureHandlersExists_pos _ _ _ hl]
    dsimp only
    obtain ⟨a, l, hcons⟩ := List.exists_cons_of_ne_nil hl
    rw [hcons, List.getElem?_cons_zero]
    dsimp only
    cases useCallback with
    | false => simp
    | true => cases a.handler payload <;> simp

/-- Witness for claim C10: on a dispatcher whose default strictness is off,
a request for an unregistered name reaches the unsafe read and ends in a
type error. -/
theorem request_element_zero_guard_witness :
    (lookupEntries intercomLax.methodHandlers "m" = []) ∧
    (((some false : Option Bool).getD false ||
      intercomLax.config.throwErrorIfNoMethodHandlerFound) = false) ∧
    (request intercomLax "m" 0 (some false) false).2 = .thrown .typeError :=
  ⟨rfl, rfl, (request_element_zero_guard intercomLax "m" 0 (some false) false).1 rfl rfl⟩

/-- Claim C7: every dispatcher state reachable through the public interface
holds at most one entry per name in the method registry; every operation
preserves this bound regardless of configuration. -/
theorem method_registry_at_most_one (st : Intercom ε β γ) (h : Reachable st)
    (n : String) : (lookupEntries st.methodHandlers n).length ≤ 1 := by
  induction h with
  | stepInit config =>
    simp [Intercom.init, lookupEntries, emptyRegistry]
  | stepEmit h eventName payload config ih =>
    rw [emit_fst]
    exact ih
  | stepOnEvent h eventName handler config generateId hg ih =>
    rw [onEvent_fst_methodHandlers]
    exact ih
  | stepRemoveAllEventHandlers h eventName ih =>
    exact ih
  | stepRemoveEventHandler h eventName handlerId ih =>
    exact ih
  | stepRequest h methodName payload config useCallback ih =>
    rw [request_fst]
    dsimp only
    rw [lookupEntries_prepare]
    exact ih
  | stepOnRequest h methodName handler generateId hg ih =>
    rcases onRequest_fst_methodHandlers_cases _ methodName handler generateId hg with
      hcase | ⟨e, hcase⟩
    · rw [hcase, lookupEntries_prepare]
      exact ih
    · rw [hcase]
      by_cases hn : n = methodName
      · subst hn
        rw [lookupEntries_setSlot_self]
        simp
      · rw [lookupEntries_setSlot_ne _ _ _ _ hn, lookupEntries_prepare]
        exact ih
  | stepRemoveMethodHandler h methodName ih =>
    unfold removeMethodHandler removeAllHandlers
    dsimp only
    by_cases hn : n = methodName
    · subst hn
      rw [lookupEntries_setSlot_self]
      simp
    · rw [lookupEntries_setSlot_ne _ _ _ _ hn]
      exact ih

/-- Witness for claim C7 at the state reached by one method registration on
a fresh dispatcher. -/
theorem method_registry_at_most_one_witness :
    (lookupEntries
      (onRequest (Intercom.init none : Intercom Nat Nat Nat) "m"
        (.promiseMethod (fun x => .ok (some x))) gen0 hgInitM).1.methodHandlers "m").length ≤ 1 :=
  method_registry_at_most_one _
    (Reachable.stepOnRequest (Reachable.stepInit none) "m"
      (.promiseMethod (fun x => .ok (some x))) gen0 hgInitM) "m"

end IntercomJs
